import Mathlib

/-!
Verification of the grpxy reverse proxy (main.go) against its specification.

The Go program is shallowly embedded:
* `URL`, `urlParse` model the fields of `net/url.URL` and the behaviour of
  `url.Parse` that the program relies on (an external library, used only
  through its interface: scheme/host/path decomposition, failure on
  control characters).
* `Glob`, `globCompile`, `Glob.Match` model the external `gobwas/glob`
  library at its interface: `*` matches any run of characters; patterns
  using bracket constructs (which this model does not support) fail to
  compile.
* `App`, `Config`, `loadConfig`, `watchReload` embed the configuration
  data model and `loadConfig` / `watchConfig` from main.go.  Go's
  `map[string]*App` is embedded as an association list in declaration
  order; the unspecified iteration order of a Go map is modelled by
  quantifying over permutations of that list.
* `App.getNextBackend`, `directorFunc` embed round-robin selection and
  the reverse-proxy director.  The `uint32` counter is a `Nat` reduced
  mod 2^32; an out-of-range lookup (modulo by zero on an empty backend
  list, a runtime panic in Go) is modelled as `none`.
* `GateState`, `GateStep`, `Reachable` embed the per-tenant admission
  state: the semaphore channel (capacity `max_requests`), the request
  queue channel (capacity `queue_size`) and the single queue worker.
* `requestHandler` embeds the HTTP handler: preflight short-circuit,
  host resolution, body buffering, and the two non-blocking channel
  sends of the admission attempt, including the rendezvous delivery of
  a queue send to a parked worker.
-/

/-- Model of the `net/url.URL` fields used by the program
(`Scheme`, `Host`, `Path`). -/
structure URL where
  scheme : String
  host : String
  path : String
deriving DecidableEq, Repr

/-- True when the byte list contains an ASCII control character; Go's
`url.Parse` rejects such strings. -/
def hasCtl (s : List Char) : Bool :=
  s.any (fun c => c.toNat < 32 || c.toNat == 127)

/-- Split a character list at the first occurrence of the literal
separator `://`, returning the scheme part and the remainder. -/
def splitScheme : List Char → Option (List Char × List Char)
  | ':' :: '/' :: '/' :: rest => some ([], rest)
  | c :: rest =>
      match splitScheme rest with
      | none => none
      | some (pre, post) => some (c :: pre, post)
  | [] => none

/-- Split the part after `://` into the host (up to the first `/`) and
the path (from the first `/` on). -/
def splitHostPath : List Char → List Char × List Char
  | [] => ([], [])
  | '/' :: rest => ([], '/' :: rest)
  | c :: rest =>
      let hp := splitHostPath rest
      (c :: hp.1, hp.2)

/-- Model of `net/url.Parse` at the interface the program uses: it fails
on control characters, decomposes `scheme://host/path`, and treats a
string without `://` as a bare path. -/
def urlParse (s : String) : Except String URL :=
  let cs := s.toList
  if hasCtl cs then
    .error "net/url: invalid control character in URL"
  else
    match splitScheme cs with
    | none => .ok ⟨"", "", s⟩
    | some (scheme, rest) =>
        let hp := splitHostPath rest
        .ok ⟨String.mk scheme, String.mk hp.1, String.mk hp.2⟩

/-- Model of a compiled `gobwas/glob` pattern. -/
structure Glob where
  pattern : String
deriving DecidableEq, Repr

/-- Glob matching with `*` wildcards: `*` matches any run of characters,
all other characters match literally.  This is the interface behaviour
of the external `gobwas/glob` library on the patterns this model
supports. -/
def globMatch : List Char → List Char → Bool
  | [], s => s.isEmpty
  | '*' :: ps, s => (List.tails s).any (fun t => globMatch ps t)
  | p :: ps, c :: cs => (p = c) && globMatch ps cs
  | _ :: _, [] => false

/-- Model of `glob.Compile`: patterns using bracket constructs are
outside this model and fail to compile (the external library likewise
fails on malformed bracket patterns such as a lone `[`). -/
def globCompile (pattern : String) : Except String Glob :=
  if pattern.toList.any (fun c => c = '[' || c = '{') then
    .error "glob: unsupported bracket construct"
  else
    .ok ⟨pattern⟩

/-- Model of `glob.Glob.Match`. -/
def Glob.Match (g : Glob) (s : String) : Bool :=
  globMatch g.pattern.toList s.toList

/-- The `App` struct of main.go.  The runtime channels, the proxy and
the atomic counter are modelled separately (`GateState`, the counter
argument of `App.getNextBackend`); `compiledGlob` and `backendUrls` are
the fields filled in by `loadConfig`, zero-valued (`none`, `[]`) on a
freshly decoded configuration. -/
structure App where
  serverName : String
  backends : List String
  maxRequests : Nat
  queueSize : Nat
  loadBalance : String
  backendUrls : List URL := []
  compiledGlob : Option Glob := none
deriving DecidableEq, Repr

/-- The `Global` struct of main.go. -/
structure Global where
  maxQueueSize : Nat := 0
  listenPort : String := ""
  tlsCertPath : String := ""
  tlsKeyPath : String := ""
  cdnPort : String := ""
  cdnRoot : String := ""
deriving DecidableEq, Repr

/-- The `Config` struct of main.go.  `apps` is Go's `map[string]*App`,
embedded as an association list in declaration order. -/
structure Config where
  global : Global
  apps : List (String × App)
deriving DecidableEq, Repr

/-- The per-app body of the loop in `loadConfig` (main.go lines
120-168): compile the glob, parse every backend URL, record both on the
app.  The `load_balance` field is never inspected. -/
def compileApp (app : App) : Except String App := do
  let g ← globCompile app.serverName
  let urls ← app.backends.mapM urlParse
  pure { app with compiledGlob := some g, backendUrls := urls }

/-- One iteration of the `loadConfig` loop: compile the app and keep it
under its map key. -/
def loadEntry (na : String × App) : Except String (String × App) := do
  let a ← compileApp na.2
  pure (na.1, a)

/-- `loadConfig` (main.go lines 114-171).  The TOML decoding of the
file is an external collaborator; its outcome is the `decoded`
argument, and a decode error is returned unchanged, as in the Go
function. -/
def loadConfig (decoded : Except String Config) : Except String Config := do
  let cfg ← decoded
  let apps ← cfg.apps.mapM loadEntry
  pure { cfg with apps := apps }

/-- One write event of `watchConfig` (main.go lines 284-293): reload
the configuration; on error, log and keep the current snapshot; on
success, publish the new one. -/
def watchReload (current : Config) (decoded : Except String Config) : Config :=
  match loadConfig decoded with
  | .error _ => current
  | .ok newCfg => newCfg

/-- Replace an app's `load_balance` value. -/
def appLB (v : String) (a : App) : App :=
  { a with loadBalance := v }

/-- Replace the `load_balance` value of a keyed app entry. -/
def pairLB (v : String) (na : String × App) : String × App :=
  (na.1, appLB v na.2)

/-- Replace every app's `load_balance` value (used to state that
`loadConfig` never looks at this field). -/
def setLoadBalance (v : String) (cfg : Config) : Config :=
  { cfg with apps := cfg.apps.map (pairLB v) }

/-- The `uint32` counter step of `atomic.AddUint32(&app.currentIndex, 1)`:
increment and wrap at 2^32. -/
def nextCounter (c : Nat) : Nat :=
  (c + 1) % 2 ^ 32

/-- `App.getNextBackend` (main.go lines 190-193): increment the atomic
counter, then index `backendUrls` at `index % len(backendUrls)`.  With
an empty backend list Go divides by zero and panics; the model returns
`none` there. -/
def App.getNextBackend (app : App) (counter : Nat) : Nat × Option URL :=
  let index := nextCounter counter
  (index, app.backendUrls[index % app.backendUrls.length]?)

/-- Value of the round-robin counter after `k` calls to
`getNextBackend`, starting from the zero value of `currentIndex`. -/
def counterAfterCalls (app : App) : Nat → Nat
  | 0 => 0
  | k + 1 => (app.getNextBackend (counterAfterCalls app k)).1

/-- The backend selected by the k-th call (1-indexed) to
`getNextBackend` under serialized observation. -/
def kthSelected (app : App) (k : Nat) : Option URL :=
  (app.getNextBackend (counterAfterCalls app (k - 1))).2

/-- Occupancy of one tenant's admission channels: `running` is the
number of tokens in the `semaphore` channel, `queued` the number of
requests buffered in the `requestQueue` channel, and `workerHolding`
records whether the queue worker has dequeued a request it has not yet
pushed into the semaphore. -/
structure GateState where
  running : Nat
  queued : Nat
  workerHolding : Bool
deriving DecidableEq, Repr

/-- The atomic transitions of one tenant's admission machinery, for
semaphore capacity `C` (`max_requests`) and queue capacity `Q`
(`queue_size`):
* `admitRun` — the handler's non-blocking semaphore send succeeds
  (main.go line 237);
* `enqueue` — the handler's non-blocking queue send succeeds
  (line 247);
* `reject` — both sends fail, 503, no state change (line 250);
* `handoff` — with the worker parked at its receive, a send is
  delivered directly (the rendezvous of an unbuffered channel when
  `queue_size` is 0);
* `workerDequeue` — the worker receives a queued request (line 257);
* `workerAcquire` — the worker's blocking semaphore send completes and
  the request it held starts running (lines 258-259);
* `release` — a finished request's deferred semaphore receive
  (lines 238 and 260). -/
inductive GateStep (C Q : Nat) : GateState → GateState → Prop
  | admitRun (s : GateState) (h : s.running < C) :
      GateStep C Q s { s with running := s.running + 1 }
  | enqueue (s : GateState) (h : s.queued < Q) :
      GateStep C Q s { s with queued := s.queued + 1 }
  | reject (s : GateState) (h1 : C ≤ s.running) (h2 : Q ≤ s.queued) :
      GateStep C Q s s
  | handoff (s : GateState) (h : s.workerHolding = false) :
      GateStep C Q s { s with workerHolding := true }
  | workerDequeue (s : GateState) (h1 : s.workerHolding = false) (h2 : 0 < s.queued) :
      GateStep C Q s { s with queued := s.queued - 1, workerHolding := true }
  | workerAcquire (s : GateState) (h1 : s.workerHolding = true) (h2 : s.running < C) :
      GateStep C Q s { s with running := s.running + 1, workerHolding := false }
  | release (s : GateState) (h : 0 < s.running) :
      GateStep C Q s { s with running := s.running - 1 }

/-- States of one tenant's admission machinery reachable from the
initial state (empty semaphore, empty queue, worker parked) under any
interleaving of the transitions. -/
def Reachable (C Q : Nat) (s : GateState) : Prop :=
  Relation.ReflTransGen (GateStep C Q) ⟨0, 0, false⟩ s

/-- An inbound request as the handler sees it: method, Host header,
and the outcome of `io.ReadAll(r.Body)` (external I/O, modelled by its
result). -/
structure Request where
  method : String
  host : String
  bodyRead : Except String (List UInt8)
deriving Repr

/-- A response written locally by the handler (status code, headers set
on it, and the error text of `http.Error` where one is written). -/
structure Response where
  status : Nat
  headers : List (String × String)
  text : String
deriving DecidableEq, Repr

/-- What the handler does with a request: answer it locally (no backend
is contacted), forward it to the matched app's proxy holding a running
slot, or place it, with its buffered body, on the matched app's queue. -/
inductive Outcome where
  | respond (resp : Response)
  | proxy (app : App) (body : List UInt8)
  | enqueue (app : App) (body : List UInt8)
deriving DecidableEq, Repr

/-- The fixed CORS/frame/CSP header set written on a preflight answer
(main.go lines 198-205), in source order. -/
def corsHeaders : List (String × String) :=
  [("Access-Control-Allow-Origin", "*"),
   ("Access-Control-Allow-Methods", "*"),
   ("Access-Control-Allow-Headers", "*"),
   ("Access-Control-Allow-Credentials", "true"),
   ("Access-Control-Expose-Headers", "*"),
   ("Access-Control-Max-Age", "86400"),
   ("X-Frame-Options", "ALLOWALL"),
   ("Content-Security-Policy", "frame-ancestors *")]

/-- The preflight answer: status 204 with the fixed header set. -/
def preflightResponse : Response := ⟨204, corsHeaders, ""⟩

/-- `http.Error(w, "No matching application", 404)`. -/
def notFoundResponse : Response := ⟨404, [], "No matching application"⟩

/-- `http.Error(w, "Failed to read request body", 500)`. -/
def bodyReadErrorResponse : Response := ⟨500, [], "Failed to read request body"⟩

/-- `http.Error(w, "Service unavailable (queue full)", 503)`. -/
def unavailableResponse : Response := ⟨503, [], "Service unavailable (queue full)"⟩

/-- The per-app test of the resolution loop (main.go line 216):
`app.compiledGlob != nil && app.compiledGlob.Match(r.Host)`. -/
def appMatches (app : App) (host : String) : Bool :=
  match app.compiledGlob with
  | some g => g.Match host
  | none => false

/-- Host resolution (main.go lines 214-220): first app, in the order
the map is iterated, whose compiled glob matches the Host header. -/
def resolveApp (apps : List App) (host : String) : Option App :=
  apps.find? (fun a => appMatches a host)

/-- Pointwise update of the per-app gate states at one index. -/
def updateGates (gates : Nat → GateState) (i : Nat) (g : GateState) : Nat → GateState :=
  fun j => if j = i then g else gates j

/-- `requestHandler` (main.go lines 195-253).  `apps` is the list of
configured apps in the (arbitrary) order the Go map is iterated;
`gates i` is the channel occupancy of `apps[i]`, and `parked i` records
whether the queue worker of `apps[i]` is parked at its
`<-app.requestQueue` receive at the instant of the queue send (a
scheduler-dependent fact, an input of the model).  The two `select`
statements with `default` branches are the two non-blocking sends.  A
non-blocking channel send in Go succeeds when a receiver is waiting
(the value is delivered directly, a rendezvous — the only way a send
on an unbuffered `queue_size = 0` queue succeeds) or when the buffer
has room; the queue branch models both cases, receiver first, as the
runtime does.  The semaphore channel never has a parked receiver (its
receives, the releases, only run while a token is held), so its
non-blocking send succeeds exactly when `running < max_requests`. -/
def requestHandler (apps : List App) (gates : Nat → GateState) (parked : Nat → Bool)
    (req : Request) : Outcome × (Nat → GateState) :=
  if req.method = "OPTIONS" then
    (.respond preflightResponse, gates)
  else
    match apps.findIdx? (fun a => appMatches a req.host) with
    | none => (.respond notFoundResponse, gates)
    | some i =>
        match apps[i]? with
        | none => (.respond notFoundResponse, gates)
        | some app =>
            match req.bodyRead with
            | .error _ => (.respond bodyReadErrorResponse, gates)
            | .ok body =>
                let s := gates i
                if s.running < app.maxRequests then
                  (.proxy app body, updateGates gates i { s with running := s.running + 1 })
                else if parked i then
                  (.enqueue app body, updateGates gates i { s with workerHolding := true })
                else if s.queued < app.queueSize then
                  (.enqueue app body, updateGates gates i { s with queued := s.queued + 1 })
                else
                  (.respond unavailableResponse, gates)

/-- The forwarded request as the director sees it: the URL fields it
rewrites, the request's Host field, and its header map. -/
structure ProxyRequest where
  urlScheme : String
  urlHost : String
  urlPath : String
  host : String
  headers : List (String × String)
deriving DecidableEq, Repr

/-- Model of `http.Header.Set`: replace any existing value for the
key. -/
def headerSet (hs : List (String × String)) (k v : String) : List (String × String) :=
  (k, v) :: hs.filter (fun p => p.1 ≠ k)

/-- Model of `http.Header.Get`. -/
def headerGet (hs : List (String × String)) (k : String) : Option String :=
  (hs.find? (fun p => p.1 = k)).map (fun p => p.2)

/-- `directorFunc` (main.go lines 173-182): pick the next backend, then
rewrite scheme, host, path, `req.Host`, and finally set
`X-Forwarded-Host` from the just-assigned `req.Host`.  The field
updates are sequenced exactly as in the source.  Returns the new
counter value and the rewritten request (`none` models the Go panic on
an empty backend list). -/
def directorFunc (app : App) (counter : Nat) (req : ProxyRequest) :
    Nat × Option ProxyRequest :=
  match app.getNextBackend counter with
  | (counter', none) => (counter', none)
  | (counter', some target) =>
      let req := { req with urlScheme := target.scheme }
      let req := { req with urlHost := target.host }
      let req := { req with urlPath := target.path ++ req.urlPath }
      let req := { req with host := target.host }
      let req := { req with headers := headerSet req.headers "X-Forwarded-Host" req.host }
      (counter', some req)

/-! Concrete configurations and requests used as inputs of witnesses
and counterexamples. -/

/-- A compiled app whose pattern `*` matches every host and whose one
backend is `http://a`. -/
def cexAppA : App :=
  { serverName := "*", backends := ["http://a"], maxRequests := 1, queueSize := 1,
    loadBalance := "round_robin", backendUrls := [⟨"http", "a", ""⟩],
    compiledGlob := some ⟨"*"⟩ }

/-- A second compiled app with the same pattern `*` but backend
`http://b`. -/
def cexAppB : App :=
  { serverName := "*", backends := ["http://b"], maxRequests := 1, queueSize := 1,
    loadBalance := "round_robin", backendUrls := [⟨"http", "b", ""⟩],
    compiledGlob := some ⟨"*"⟩ }

/-- A compiled app matching only `x.example.com`, with two backends. -/
def rrApp : App :=
  { serverName := "x.example.com", backends := ["http://b0", "http://b1"],
    maxRequests := 2, queueSize := 1, loadBalance := "round_robin",
    backendUrls := [⟨"http", "b0", ""⟩, ⟨"http", "b1", ""⟩],
    compiledGlob := some ⟨"x.example.com"⟩ }

/-- A decoded app whose `load_balance` value is not `round_robin`. -/
def weightedApp : App :=
  { serverName := "*", backends := ["http://b"], maxRequests := 1, queueSize := 1,
    loadBalance := "weighted" }

/-- A decoded configuration containing `weightedApp`. -/
def weightedCfg : Config := { global := {}, apps := [("api", weightedApp)] }

/-- A decoded app with an empty `backends` list. -/
def emptyBackendsApp : App :=
  { serverName := "e.example.com", backends := [], maxRequests := 1, queueSize := 1,
    loadBalance := "round_robin" }

/-- A decoded configuration containing `emptyBackendsApp`. -/
def emptyBackendsCfg : Config := { global := {}, apps := [("empty", emptyBackendsApp)] }

/-- What `loadConfig` produces from `emptyBackendsCfg`: the app is
accepted, with an empty compiled backend list. -/
def compiledEmptyApp : App :=
  { emptyBackendsApp with compiledGlob := some ⟨"e.example.com"⟩, backendUrls := [] }

/-- A decoded app whose `server_name` pattern fails to compile. -/
def badGlobApp : App :=
  { serverName := "[bad", backends := ["http://b"], maxRequests := 1, queueSize := 1,
    loadBalance := "round_robin" }

/-- A decoded configuration containing `badGlobApp`. -/
def badGlobCfg : Config := { global := {}, apps := [("bad", badGlobApp)] }

/-- A plain GET request with a two-byte body. -/
def reqGet : Request := { method := "GET", host := "h.example.com", bodyRead := .ok [1, 2] }

/-- A GET request whose body read fails. -/
def reqBadBody : Request :=
  { method := "GET", host := "h.example.com", bodyRead := .error "read: connection reset" }

/-- An OPTIONS preflight request. -/
def reqOptions : Request := { method := "OPTIONS", host := "nomatch.test", bodyRead := .ok [] }

/-- A forwarded request before the director runs. -/
def preDirectorReq : ProxyRequest :=
  { urlScheme := "https", urlHost := "orig.example.com", urlPath := "/p",
    host := "orig.example.com", headers := [] }

/-! Helper lemmas. -/

/-- A `find?` is the head of the corresponding `filter`. -/
theorem find?_eq_head?_filter {α : Type} (p : α → Bool) (l : List α) :
    l.find? p = (l.filter p).head? := by
  induction l with
  | nil => rfl
  | cons a l ih =>
      cases h : p a
      · rw [List.find?_cons_of_neg _ (by simp [h]), List.filter_cons_of_neg (by simp [h]), ih]
      · rw [List.find?_cons_of_pos _ h, List.filter_cons_of_pos h, List.head?_cons]

/-- After `k` calls the round-robin counter holds `k` reduced mod 2^32. -/
theorem counterAfterCalls_eq (app : App) (k : Nat) :
    counterAfterCalls app k = k % 2 ^ 32 := by
  induction k with
  | zero => simp [counterAfterCalls]
  | succ k ih =>
      have h32 : (2 : Nat) ^ 32 = 4294967296 := by norm_num
      simp only [counterAfterCalls, App.getNextBackend, nextCounter, ih, h32]
      omega

/-- `compileApp` commutes with replacing `load_balance`: the field is
never read. -/
theorem compileApp_appLB (v : String) (a : App) :
    compileApp (appLB v a) = Except.map (appLB v) (compileApp a) := by
  unfold compileApp appLB
  cases hg : globCompile a.serverName <;>
    cases hu : a.backends.mapM urlParse <;>
      simp [hg, hu, Except.map, bind, Except.bind, pure, Except.pure]

/-- `loadEntry` commutes with replacing `load_balance`. -/
theorem loadEntry_pairLB (v : String) (na : String × App) :
    loadEntry (pairLB v na) = Except.map (pairLB v) (loadEntry na) := by
  unfold loadEntry pairLB
  rw [show (na.1, appLB v na.2).2 = appLB v na.2 from rfl, compileApp_appLB]
  cases compileApp na.2 <;>
    simp [Except.map, bind, Except.bind, pure, Except.pure, pairLB]

/-- Compiling all entries commutes with replacing every
`load_balance`. -/
theorem mapM_loadEntry_pairLB (v : String) (l : List (String × App)) :
    (l.map (pairLB v)).mapM loadEntry = Except.map (List.map (pairLB v)) (l.mapM loadEntry) := by
  induction l with
  | nil => rfl
  | cons a l ih =>
      rw [List.map_cons, List.mapM_cons, List.mapM_cons, loadEntry_pairLB v a, ih]
      cases loadEntry a <;> cases l.mapM loadEntry <;>
        simp [Except.map, bind, Except.bind, pure, Except.pure]

/-! Claims. -/

/-- C1: for every tenant and every state reachable under concurrent
request handling, at most `max_requests` requests are running, at most
`queue_size` requests are waiting in the queue, and their sum never
exceeds `max_requests + queue_size`. -/
theorem admission_gate_invariant (C Q : Nat) (s : GateState) (h : Reachable C Q s) :
    s.running ≤ C ∧ s.queued ≤ Q ∧ s.running + s.queued ≤ C + Q := by
  have key : s.running ≤ C ∧ s.queued ≤ Q := by
    induction h with
    | refl => exact ⟨Nat.zero_le C, Nat.zero_le Q⟩
    | tail _ step ih =>
        rcases ih with ⟨ih1, ih2⟩
        cases step with
        | admitRun ht => exact ⟨ht, ih2⟩
        | enqueue ht => exact ⟨ih1, ht⟩
        | reject h1 h2 => exact ⟨ih1, ih2⟩
        | handoff ht => exact ⟨ih1, ih2⟩
        | workerDequeue h1 h2 => exact ⟨ih1, Nat.le_trans (Nat.sub_le _ _) ih2⟩
        | workerAcquire h1 h2 => exact ⟨h2, ih2⟩
        | release ht => exact ⟨Nat.le_trans (Nat.sub_le _ _) ih1, ih2⟩
  exact ⟨key.1, key.2, Nat.add_le_add key.1 key.2⟩

/-- Witness for C1: the state reached after one admitted request under
capacities C = 2, Q = 1 satisfies the bounds. -/
theorem admission_gate_invariant_witness :
    (⟨1, 0, false⟩ : GateState).running ≤ 2 ∧ (⟨1, 0, false⟩ : GateState).queued ≤ 1 ∧
      (⟨1, 0, false⟩ : GateState).running + (⟨1, 0, false⟩ : GateState).queued ≤ 2 + 1 :=
  admission_gate_invariant 2 1 ⟨1, 0, false⟩
    (Relation.ReflTransGen.single (GateStep.admitRun ⟨0, 0, false⟩ (by decide)))

/-- A compiled app matching only `y.example.com` (disjoint from
`rrApp`'s pattern). -/
def otherApp : App :=
  { serverName := "y.example.com", backends := ["http://c"], maxRequests := 1, queueSize := 1,
    loadBalance := "round_robin", backendUrls := [⟨"http", "c", ""⟩],
    compiledGlob := some ⟨"y.example.com"⟩ }

/-- A compiled app with one running slot and an unbuffered
(`queue_size = 0`) request queue. -/
def zeroQueueApp : App :=
  { serverName := "*", backends := ["http://z"], maxRequests := 1, queueSize := 0,
    loadBalance := "round_robin", backendUrls := [⟨"http", "z", ""⟩],
    compiledGlob := some ⟨"*"⟩ }

/-- Counterexample to C2: with `queue_size = 0`, one request running
(slots full) and the queue at its capacity of zero, a request arriving
while the worker is parked at its receive is admitted by rendezvous
(handed to the worker carrying its body), not answered 503. -/
theorem full_tenant_admitted_by_rendezvous_counterexample :
    zeroQueueApp.maxRequests ≤ (⟨1, 0, false⟩ : GateState).running ∧
    zeroQueueApp.queueSize ≤ (⟨1, 0, false⟩ : GateState).queued ∧
    (requestHandler [zeroQueueApp] (fun _ => ⟨1, 0, false⟩) (fun _ => true) reqGet).1 =
      .enqueue zeroQueueApp [1, 2] ∧
    (requestHandler [zeroQueueApp] (fun _ => ⟨1, 0, false⟩) (fun _ => true) reqGet).1 ≠
      .respond unavailableResponse := by
  refine ⟨by decide, by decide, by decide, by decide⟩

/-- C2 as amended: a routed non-OPTIONS request to a tenant whose
running slots are full, whose wait-queue buffer is full, and whose
queue worker is not parked at its queue receive is answered 503
immediately: the handler returns a local response (no backend is
contacted, nothing is enqueued) and every tenant's gate state is
unchanged. -/
theorem full_tenant_rejected_503 (apps : List App) (gates : Nat → GateState)
    (parked : Nat → Bool) (req : Request) (i : Nat) (app : App)
    (hm : ¬ req.method = "OPTIONS")
    (hidx : apps.findIdx? (fun a => appMatches a req.host) = some i)
    (happ : apps[i]? = some app)
    (hbody : req.bodyRead.isOk = true)
    (hrun : app.maxRequests ≤ (gates i).running)
    (hnp : parked i = false)
    (hq : app.queueSize ≤ (gates i).queued) :
    requestHandler apps gates parked req = (.respond unavailableResponse, gates) ∧
      unavailableResponse.status = 503 := by
  refine ⟨?_, rfl⟩
  cases hb : req.bodyRead with
  | error e => rw [hb] at hbody; simp [Except.isOk, Except.toBool] at hbody
  | ok body =>
      simp only [requestHandler, if_neg hm, hidx, happ, hb]
      rw [if_neg (by omega), if_neg (by simp [hnp]), if_neg (by omega)]

/-- Witness for the amended C2: a GET to the single-tenant
configuration whose one running slot and one queue slot are both
occupied, with the worker not parked, is rejected. -/
theorem full_tenant_rejected_503_witness :
    requestHandler [cexAppA] (fun _ => ⟨1, 1, false⟩) (fun _ => false) reqGet =
      (.respond unavailableResponse, fun _ => ⟨1, 1, false⟩) ∧
      unavailableResponse.status = 503 :=
  full_tenant_rejected_503 [cexAppA] (fun _ => ⟨1, 1, false⟩) (fun _ => false) reqGet 0 cexAppA
    (by decide) (by rfl) (by rfl) (by rfl) (by decide) (by rfl) (by decide)

/-- C7: every OPTIONS request, whatever its Host header, is answered
with status 204 and the full fixed CORS/frame/CSP header set before
host resolution and admission, leaving every tenant's gate state
untouched. -/
theorem options_preflight_bypasses_admission (apps : List App) (gates : Nat → GateState)
    (parked : Nat → Bool) (req : Request) (hm : req.method = "OPTIONS") :
    requestHandler apps gates parked req = (.respond preflightResponse, gates) ∧
      preflightResponse.status = 204 ∧ preflightResponse.headers = corsHeaders := by
  refine ⟨?_, rfl, rfl⟩
  unfold requestHandler
  rw [if_pos hm]

/-- Witness for C7: an OPTIONS request whose Host matches no tenant is
still answered 204 with the header set. -/
theorem options_preflight_bypasses_admission_witness :
    requestHandler [rrApp] (fun _ => ⟨0, 0, false⟩) (fun _ => false) reqOptions =
      (.respond preflightResponse, fun _ => ⟨0, 0, false⟩) ∧
      preflightResponse.status = 204 ∧ preflightResponse.headers = corsHeaders :=
  options_preflight_bypasses_admission [rrApp] (fun _ => ⟨0, 0, false⟩) (fun _ => false)
    reqOptions (by rfl)

/-- C8: for a routed non-OPTIONS request the body is read before any
admission step: if the read fails the handler answers 500 and leaves
every gate untouched, and if it succeeds then whatever is dispatched or
enqueued carries exactly the buffered body. -/
theorem body_buffered_before_admission (apps : List App) (gates : Nat → GateState)
    (parked : Nat → Bool) (req : Request) (i : Nat) (app : App)
    (hm : ¬ req.method = "OPTIONS")
    (hidx : apps.findIdx? (fun a => appMatches a req.host) = some i)
    (happ : apps[i]? = some app) :
    (∀ e, req.bodyRead = .error e →
        requestHandler apps gates parked req = (.respond bodyReadErrorResponse, gates) ∧
          bodyReadErrorResponse.status = 500) ∧
    (∀ b, req.bodyRead = .ok b →
        (requestHandler apps gates parked req).1 = .respond unavailableResponse ∨
        (requestHandler apps gates parked req).1 = .proxy app b ∨
        (requestHandler apps gates parked req).1 = .enqueue app b) := by
  constructor
  · intro e he
    refine ⟨?_, rfl⟩
    simp only [requestHandler, if_neg hm, hidx, happ, he]
  · intro b hb
    simp only [requestHandler, if_neg hm, hidx, happ, hb]
    by_cases h1 : (gates i).running < app.maxRequests
    · rw [if_pos h1]; right; left; rfl
    · rw [if_neg h1]
      by_cases hp : parked i
      · rw [if_pos hp]; right; right; rfl
      · rw [if_neg hp]
        by_cases h2 : (gates i).queued < app.queueSize
        · rw [if_pos h2]; right; right; rfl
        · rw [if_neg h2]; left; rfl

/-- Witness for C8: a routed GET with a readable two-byte body against
an idle tenant. -/
theorem body_buffered_before_admission_witness :
    (∀ e, reqGet.bodyRead = .error e →
        requestHandler [cexAppA] (fun _ => ⟨0, 0, false⟩) (fun _ => false) reqGet =
          (.respond bodyReadErrorResponse, fun _ => ⟨0, 0, false⟩) ∧
          bodyReadErrorResponse.status = 500) ∧
    (∀ b, reqGet.bodyRead = .ok b →
        (requestHandler [cexAppA] (fun _ => ⟨0, 0, false⟩) (fun _ => false) reqGet).1 =
            .respond unavailableResponse ∨
        (requestHandler [cexAppA] (fun _ => ⟨0, 0, false⟩) (fun _ => false) reqGet).1 =
            .proxy cexAppA b ∨
        (requestHandler [cexAppA] (fun _ => ⟨0, 0, false⟩) (fun _ => false) reqGet).1 =
            .enqueue cexAppA b) :=
  body_buffered_before_admission [cexAppA] (fun _ => ⟨0, 0, false⟩) (fun _ => false)
    reqGet 0 cexAppA (by decide) (by rfl) (by rfl)

/-- C5: when reloading the configuration fails for any reason, the
currently published snapshot is left unchanged, so request handling
continues against the last-known-good configuration. -/
theorem reload_failure_keeps_snapshot (current : Config) (decoded : Except String Config)
    (e : String) (h : loadConfig decoded = .error e) :
    watchReload current decoded = current := by
  unfold watchReload
  rw [h]

/-- Witness for C5: a reload whose new configuration has an invalid
glob pattern leaves the published snapshot unchanged. -/
theorem reload_failure_keeps_snapshot_witness :
    loadConfig (.ok badGlobCfg) = .error "glob: unsupported bracket construct" ∧
      watchReload weightedCfg (.ok badGlobCfg) = weightedCfg :=
  ⟨by rfl, reload_failure_keeps_snapshot weightedCfg (.ok badGlobCfg)
      "glob: unsupported bracket construct" (by rfl)⟩

/-- Counterexample to C3: with two backends, the first admitted request
is dispatched to backend index 1, not index (1-1) mod 2 = 0, because
the counter is incremented before the modulo is taken. -/
theorem round_robin_first_request_counterexample :
    kthSelected rrApp 1 = rrApp.backendUrls[1]? ∧
      rrApp.backendUrls[1]? ≠ rrApp.backendUrls[0]? := by
  constructor
  · decide
  · decide

/-- C3 as amended: the k-th admitted request (1-indexed, under
serialized observation) is dispatched to backend index
`(k mod 2^32) mod n` — the cycle starts at index 1, and the counter
wraps as a 32-bit integer. -/
theorem round_robin_selection_mod (app : App) (k : Nat) (hk : 1 ≤ k) :
    kthSelected app k = app.backendUrls[(k % 2 ^ 32) % app.backendUrls.length]? := by
  unfold kthSelected App.getNextBackend nextCounter
  rw [counterAfterCalls_eq]
  have h32 : (2 : Nat) ^ 32 = 4294967296 := by norm_num
  have key : ((k - 1) % 2 ^ 32 + 1) % 2 ^ 32 = k % 2 ^ 32 := by
    rw [h32]
    omega
  rw [key]

/-- Witness for the amended C3: the third request to a two-backend
tenant goes to backend index 3 mod 2 = 1. -/
theorem round_robin_selection_mod_witness :
    (1 ≤ 3) ∧
      kthSelected rrApp 3 = rrApp.backendUrls[(3 % 2 ^ 32) % rrApp.backendUrls.length]? :=
  ⟨by decide, round_robin_selection_mod rrApp 3 (by decide)⟩

/-- Counterexample to C4: the tenant collection is a Go map, iterated
in no guaranteed order; with two tenants whose patterns both match the
host, two iteration orders of the same map resolve to different
tenants. -/
theorem host_resolution_order_counterexample :
    List.Perm [cexAppA, cexAppB] [cexAppB, cexAppA] ∧
    resolveApp [cexAppA, cexAppB] "h.example.com" ≠
      resolveApp [cexAppB, cexAppA] "h.example.com" :=
  ⟨List.Perm.swap cexAppB cexAppA [], by decide⟩

/-- C4 as amended: resolution returns the first matching tenant in the
map's iteration order, which is not guaranteed stable; it is
deterministic exactly when patterns do not overlap, i.e. whenever at
most one tenant's pattern matches the host, every iteration order of
the same tenant collection resolves to the same tenant. -/
theorem host_resolution_deterministic_of_unique_match (l1 l2 : List App) (host : String)
    (hperm : l1.Perm l2)
    (huniq : (l1.filter (fun a => appMatches a host)).length ≤ 1) :
    resolveApp l1 host = resolveApp l2 host := by
  unfold resolveApp
  rw [find?_eq_head?_filter, find?_eq_head?_filter]
  have hp := hperm.filter (fun a => appMatches a host)
  rcases hf : l1.filter (fun a => appMatches a host) with _ | ⟨a, rest⟩
  · rw [hf] at hp
    rw [(List.perm_nil.mp hp.symm)]
  · rw [hf] at hp huniq
    rcases rest with _ | ⟨b, rest⟩
    · rw [List.perm_singleton.mp hp.symm]
    · simp at huniq

/-- Witness for the amended C4: with two disjoint patterns, both
iteration orders resolve `x.example.com` to the same tenant. -/
theorem host_resolution_deterministic_of_unique_match_witness :
    List.Perm [rrApp, otherApp] [otherApp, rrApp] ∧
    (([rrApp, otherApp].filter (fun a => appMatches a "x.example.com")).length ≤ 1) ∧
    resolveApp [rrApp, otherApp] "x.example.com" =
      resolveApp [otherApp, rrApp] "x.example.com" :=
  ⟨List.Perm.swap otherApp rrApp [], by decide,
    host_resolution_deterministic_of_unique_match [rrApp, otherApp] [otherApp, rrApp]
      "x.example.com" (List.Perm.swap otherApp rrApp []) (by decide)⟩

/-- Counterexample to C6: a configuration whose app declares
`load_balance = "weighted"` is accepted by `loadConfig`, not rejected. -/
theorem load_balance_value_accepted_counterexample :
    (loadConfig (.ok weightedCfg)).isOk = true ∧
      weightedApp.loadBalance ≠ "round_robin" := by
  constructor
  · rfl
  · decide

/-- C6 as amended: `loadConfig` performs no validation of
`load_balance` at all — replacing every app's `load_balance` by an
arbitrary string never changes whether the configuration is
accepted. -/
theorem load_balance_not_validated (v : String) (cfg : Config) :
    (loadConfig (.ok (setLoadBalance v cfg))).isOk = (loadConfig (.ok cfg)).isOk := by
  unfold loadConfig setLoadBalance
  simp only [bind, Except.bind]
  rw [mapM_loadEntry_pairLB]
  cases cfg.apps.mapM loadEntry <;>
    simp [Except.map, bind, Except.bind, pure, Except.pure, Except.isOk, Except.toBool]

/-- C9: `loadConfig` accepts an app with an empty `backends` list, and
round-robin selection on that app then takes a modulo by zero — a
runtime panic in Go, modelled here as an out-of-range (`none`)
lookup.  The claim that such a configuration is rejected is right about
the intent and wrong about the code. -/
theorem empty_backends_accepted_bug :
    loadConfig (.ok emptyBackendsCfg) =
        .ok { global := {}, apps := [("empty", compiledEmptyApp)] } ∧
      compiledEmptyApp.backendUrls = [] ∧
      (compiledEmptyApp.getNextBackend 0).2 = none := by
  refine ⟨rfl, rfl, rfl⟩

/-- C10: the director assigns the selected backend's host to `req.Host`
before setting `X-Forwarded-Host` from `req.Host`, so the forwarded
`X-Forwarded-Host` header always equals the backend's own host,
regardless of the client's original Host value. -/
theorem director_sets_forwarded_host_from_backend (app : App) (counter : Nat)
    (req : ProxyRequest) (target : URL)
    (hsel : (app.getNextBackend counter).2 = some target) :
    ((directorFunc app counter req).2.map ProxyRequest.host = some target.host) ∧
    ((directorFunc app counter req).2.bind
        (fun r => headerGet r.headers "X-Forwarded-Host") = some target.host) := by
  unfold directorFunc
  cases hgn : app.getNextBackend counter with
  | mk c t =>
      rw [hgn] at hsel
      simp only at hsel
      subst hsel
      simp [headerGet, headerSet]

/-- Witness for C10: forwarding a request whose original Host is
`orig.example.com` through a tenant with backend host `a` sets both
`req.Host` and `X-Forwarded-Host` to `a`. -/
theorem director_sets_forwarded_host_from_backend_witness :
    ((directorFunc cexAppA 0 preDirectorReq).2.map ProxyRequest.host =
        some (URL.mk "http" "a" "").host) ∧
    ((directorFunc cexAppA 0 preDirectorReq).2.bind
        (fun r => headerGet r.headers "X-Forwarded-Host") = some (URL.mk "http" "a" "").host) :=
  director_sets_forwarded_host_from_backend cexAppA 0 preDirectorReq ⟨"http", "a", ""⟩ (by rfl)
